import Mathlib

/-!
Verification of the EcoCalc retrieval-augmented query loop.

Shallow embedding of the relevant parts of `src/agent.py` and
`src/energy_calculator_ui.py`:

* the fact-result normalization loop inside the tool `search_graphiti`
  (agent.py lines 96-129), including the `1kWh` rewrite rule, the temporal
  attribute handling and the error path that logs and re-raises;
* the interactive run loop in `main` (agent.py lines 156-185): streamed
  fragment accumulation, the per-turn failure handling, and the update of
  the `messages` chat history via `messages.extend(result.all_messages())`
  — where, per pydantic-ai semantics, `result.all_messages()` returns the
  supplied `message_history` followed by the newly generated messages;
* the Neo4j connection parameter lookups of both front ends
  (agent.py lines 138-140, energy_calculator_ui.py lines 16-18);
* the query string builder of the form front end
  (energy_calculator_ui.py lines 206-222).
-/

namespace EcoCalc

/-- Model of a Python attribute value carried by a raw search result in a
temporal field (`valid_at` / `invalid_at`): either `None`, a string, or a
datetime-like object whose `str()` rendering is recorded. -/
inductive PyVal where
  | vNone : PyVal
  | vStr : String → PyVal
  | vDatetime : String → PyVal
deriving DecidableEq

/-- Python truthiness of a temporal attribute value: `None` is falsy, a
string is truthy iff nonempty, a datetime object is truthy. -/
def PyVal.truthy : PyVal → Bool
  | PyVal.vNone => false
  | PyVal.vStr s => s ≠ ""
  | PyVal.vDatetime _ => true

/-- Python `str()` rendering of a temporal attribute value. -/
def PyVal.pyStr : PyVal → String
  | PyVal.vNone => "None"
  | PyVal.vStr s => s
  | PyVal.vDatetime s => s

/-- Model of one raw result returned by `graphiti.search`.  An outer `none`
models a missing attribute (`hasattr` is false); for `source_node_uuid` the
attribute value itself is an optional string, hence the nested option. -/
structure RawResult where
  uuid : Option String
  fact : Option String
  source_node_uuid : Option (Option String)
  valid_at : Option PyVal
  invalid_at : Option PyVal
deriving DecidableEq

/-- Embedding of the pydantic model `GraphitiSearchResult`
(agent.py lines 73-79). -/
structure GraphitiSearchResult where
  uuid : String
  fact : String
  valid_at : Option String
  invalid_at : Option String
  source_node_uuid : Option String
deriving DecidableEq

/-- Boolean test that the first list starts with the pattern list. -/
def listStartsWith : List Char → List Char → Bool
  | [], _ => true
  | _ :: _, [] => false
  | p :: ps, c :: cs => p == c && listStartsWith ps cs

/-- Boolean test that the pattern list occurs as a contiguous sublist. -/
def listHasInfix (pat : List Char) : List Char → Bool
  | [] => pat.isEmpty
  | c :: cs => listStartsWith pat (c :: cs) || listHasInfix pat cs

/-- Model of the Python substring operator: `pyIn pat s` is `pat in s`. -/
def pyIn (pat s : String) : Bool :=
  listHasInfix pat.data s.data

/-- Embedding of one iteration of the result-formatting loop in
`search_graphiti` (agent.py lines 102-123).  Accessing a missing `fact`
or `uuid` attribute raises an `AttributeError` (the loop reads
`result.fact` first, at the `'1kWh' in result.fact` test, then
`result.uuid` in the constructor call), modelled as `Except.error`.
A statement containing the token `1kWh` is rewritten to
`"1 kWh is equivalent to " ++ fact`; temporal attributes are copied as
their `str()` rendering only when present and truthy. -/
def normalizeRecord (r : RawResult) : Except String GraphitiSearchResult :=
  match r.fact with
  | none => Except.error "AttributeError: fact"
  | some f =>
    match r.uuid with
    | none => Except.error "AttributeError: uuid"
    | some u =>
      let factText := if pyIn "1kWh" f then "1 kWh is equivalent to " ++ f else f
      let snu : Option String :=
        match r.source_node_uuid with
        | some v => v
        | none => none
      let va : Option String :=
        match r.valid_at with
        | some v => if v.truthy then some v.pyStr else none
        | none => none
      let ia : Option String :=
        match r.invalid_at with
        | some v => if v.truthy then some v.pyStr else none
        | none => none
      Except.ok { uuid := u, fact := factText, valid_at := va, invalid_at := ia,
                  source_node_uuid := snu }

/-- Embedding of the whole formatting loop of `search_graphiti`
(agent.py lines 101-125): results are normalized in order; the first
raised error aborts the loop and discards the whole batch. -/
def formatResults : List RawResult → Except String (List GraphitiSearchResult)
  | [] => Except.ok []
  | r :: rs =>
    match normalizeRecord r with
    | Except.error e => Except.error e
    | Except.ok fr =>
      match formatResults rs with
      | Except.error e => Except.error e
      | Except.ok frs => Except.ok (fr :: frs)

/-- Model of the shared Neo4j connection handle owned by the caller of the
turn; the adapter never closes or resets it. -/
structure StoreConn where
  isOpen : Bool
deriving DecidableEq

/-- Embedding of the tool `search_graphiti` (agent.py lines 96-129) as a
function of the single store response.  The result records the returned
value, the connection handle after the call, the number of times the
store search was invoked, and the log lines printed.  On any exception
(from the store or from formatting) the error is logged with the prefix
`"Error searching Graphiti: "` and re-raised unchanged; the connection is
left untouched and the search is issued exactly once. -/
def search_graphiti (storeResponse : Except String (List RawResult)) (conn : StoreConn) :
    Except String (List GraphitiSearchResult) × StoreConn × Nat × List String :=
  match storeResponse with
  | Except.error e => (Except.error e, conn, 1, ["Error searching Graphiti: " ++ e])
  | Except.ok results =>
    match formatResults results with
    | Except.error e => (Except.error e, conn, 1, ["Error searching Graphiti: " ++ e])
    | Except.ok fr => (Except.ok fr, conn, 1, [])

/-- Model of one conversational message held in the `messages` chat
history of `main` (agent.py line 154). -/
inductive Message where
  | user : String → Message
  | agent : String → Message
deriving DecidableEq

/-- Embedding of the streaming loop of `main` (agent.py lines 176-179):
starting from the accumulator `curr`, each arriving fragment is appended
to `curr_message` and the updated accumulator is pushed to the live
display.  Returns the final accumulated text together with the ordered
list of partial states shown on the display. -/
def stream_text_deltas (curr : String) : List String → String × List String
  | [] => (curr, [])
  | f :: fs =>
    let c := curr ++ f
    let rest := stream_text_deltas c fs
    (rest.1, c :: rest.2)

/-- Model of pydantic-ai `result.all_messages()` after a streamed run:
the message history supplied to the run, followed by the newly generated
user request and the agent response assembled from the streamed
fragments. -/
def all_messages (history : List Message) (userInput : String)
    (fragments : List String) : List Message :=
  history ++ [Message.user userInput, Message.agent (stream_text_deltas "" fragments).1]

/-- Embedding of one iteration of the turn loop in `main`
(agent.py lines 166-185) acting on the `messages` history.  The turn
outcome is the provider behaviour: an exception (from the tool adapter or
the completion provider) or the list of streamed fragments.  On an
exception the inner `except` block is reached before line 182 runs, so
`messages` is unchanged; on success line 182 executes
`messages.extend(result.all_messages())`. -/
def run_turn (messages : List Message) (userInput : String)
    (outcome : Except String (List String)) : List Message :=
  match outcome with
  | Except.error _ => messages
  | Except.ok fragments => messages ++ all_messages messages userInput fragments

/-- Chat history after running a sequence of turns from the empty history,
each turn given by its user input and its provider outcome. -/
def session_after (turns : List (String × Except String (List String))) : List Message :=
  turns.foldl (fun msgs t => run_turn msgs t.1 t.2) []

/-- Embedding of the Neo4j URI lookup of the chat front end
(agent.py line 138): `os.environ.get` with a documented default. -/
def agent_neo4j_uri (env : String → Option String) : String :=
  (env "NEO4J_URI").getD "neo4j://127.0.0.1:7687"

/-- Embedding of the Neo4j user lookup of the chat front end
(agent.py line 139). -/
def agent_neo4j_user (env : String → Option String) : String :=
  (env "NEO4J_USER").getD "neo4j"

/-- Embedding of the Neo4j password lookup of the chat front end
(agent.py line 140). -/
def agent_neo4j_password (env : String → Option String) : String :=
  (env "NEO4J_PASSWORD").getD "unisunis"

/-- Embedding of the Neo4j URI lookup of the form front end
(energy_calculator_ui.py line 16). -/
def ui_neo4j_uri (env : String → Option String) : String :=
  (env "NEO4J_URI").getD "neo4j://127.0.0.1:7687"

/-- Embedding of the Neo4j user lookup of the form front end
(energy_calculator_ui.py line 17). -/
def ui_neo4j_user (env : String → Option String) : String :=
  (env "NEO4J_USER").getD "neo4j"

/-- Embedding of the Neo4j password lookup of the form front end
(energy_calculator_ui.py line 18): `os.getenv` with no default, so an
absent variable yields `None`. -/
def ui_neo4j_password (env : String → Option String) : Option String :=
  env "NEO4J_PASSWORD"

/-- Fractional decimal digits of `num / den` (with `num < den`), emitted
until the remainder vanishes or the fuel runs out. -/
def decimalDigits : Nat → Nat → Nat → List Char
  | 0, _, _ => []
  | Nat.succ fuel, num, den =>
    if num == 0 then []
    else Char.ofNat (num * 10 / den + 48) :: decimalDigits fuel (num * 10 % den) den

/-- Model of the Python `str()` rendering of the float held by the custom
rate widget, for the exactly-representable decimal values that widget
produces (step 0.01): sign, integer part, and decimal digits, with
`".0"` appended for whole numbers as Python does for floats. -/
def pyFloatStr (q : Rat) : String :=
  let sign := if q < 0 then "-" else ""
  let n := q.num.natAbs
  let d := q.den
  if n % d == 0 then sign ++ toString (n / d) ++ ".0"
  else sign ++ toString (n / d) ++ "." ++ String.mk (decimalDigits 17 (n % d) d)

/-- Model of the Python string method lower on ASCII text: each uppercase
ASCII letter is shifted to its lowercase counterpart. -/
def pyCharLower (c : Char) : Char :=
  if 65 <= c.toNat && c.toNat <= 90 then Char.ofNat (c.toNat + 32) else c

/-- Model of Python str.lower applied to the appliance name. -/
def pyLower (s : String) : String := String.mk (s.data.map pyCharLower)

/-- Embedding of the query construction of the form front end
(energy_calculator_ui.py lines 206-222): a custom rate strictly greater
than zero selects the rate branch, otherwise a city other than the
placeholder selects the city branch, otherwise the default branch.  The
string literals reproduce the triple-quoted f-strings byte for byte,
including indentation and trailing spaces. -/
def build_query (appliance : String) (time : Nat) (unit : String)
    (custom_rate : Rat) (city : String) : String :=
  if custom_rate > 0 then
    "\n            I use my " ++ pyLower appliance ++ " for " ++ toString time ++
      " " ++ unit ++ " with electricity rate $" ++ pyFloatStr custom_rate ++
      "/kWh. \n            What is the energy consumption and cost? Please provide all 5 physical analogies.\n            "
  else if city ≠ "Select a City" then
    "\n            I use my " ++ pyLower appliance ++ " for " ++ toString time ++
      " " ++ unit ++ " in " ++ city ++
      ". \n            What is the energy consumption and cost? Please provide all 5 physical analogies.\n            "
  else
    "\n            I use my " ++ pyLower appliance ++ " for " ++ toString time ++
      " " ++ unit ++
      ". \n            What is the energy consumption and cost? Please provide all 5 physical analogies.\n            "

/-- Sample raw result carrying both required attributes. -/
def rawGood : RawResult :=
  { uuid := some "id-1", fact := some "Fridge uses 150 W",
    source_node_uuid := none, valid_at := none, invalid_at := none }

/-- Sample raw result missing its unique identifier attribute. -/
def rawMissingUuid : RawResult :=
  { uuid := none, fact := some "Fridge uses 150 W",
    source_node_uuid := none, valid_at := none, invalid_at := none }

/-- Sample raw result whose whole statement is the token 1kWh. -/
def rawAnalogy : RawResult :=
  { uuid := some "u1", fact := some "1kWh",
    source_node_uuid := none, valid_at := none, invalid_at := none }

/-- Sample raw result with a truthy datetime in valid_at and a falsy
empty string in invalid_at. -/
def rawTemporal : RawResult :=
  { uuid := some "u2", fact := some "NYC electricity costs 0.23 per kWh",
    source_node_uuid := some (some "n1"),
    valid_at := some (PyVal.vDatetime "2024-01-01 00:00:00"),
    invalid_at := some (PyVal.vStr "") }

/-- Concrete rational 0.30, the custom rate of the spec test case, given
as an explicit normalized fraction. -/
def rate030 : Rat := ⟨3, 10, by norm_num, by norm_num⟩

end EcoCalc

namespace EcoCalc

/-- C2: claimed behaviour is that a raw record missing id or statement is
individually dropped while the rest of the batch is normalized and
returned.  Counterexample: for the batch holding one well-formed record
followed by one record missing its uuid, the code raises an
AttributeError that aborts the whole batch (and is then re-raised by the
tool), instead of returning the normalization of the good record alone. -/
theorem batch_with_malformed_record_raises :
    formatResults [rawGood, rawMissingUuid] = Except.error "AttributeError: uuid"
    ∧ formatResults [rawGood, rawMissingUuid] ≠
        Except.ok [{ uuid := "id-1", fact := "Fridge uses 150 W", valid_at := none,
                     invalid_at := none, source_node_uuid := none }] := by
  have h1 : formatResults [rawGood, rawMissingUuid] = Except.error "AttributeError: uuid" := rfl
  refine ⟨h1, ?_⟩
  rw [h1]
  intro h
  exact Except.noConfusion h

/-- C2 (amended): a raw record missing its unique identifier or its
statement is not dropped; its attribute access raises, the whole batch is
discarded and the error escalates out of the formatting loop. -/
theorem formatResults_error_of_malformed :
    ∀ (batch : List RawResult) (r : RawResult), r ∈ batch →
      (r.uuid = none ∨ r.fact = none) →
      ∃ e, formatResults batch = Except.error e := by
  intro batch r hmem hbad
  induction batch with
  | nil => simp at hmem
  | cons hd tl ih =>
    rcases List.mem_cons.mp hmem with heq | hmem2
    · subst heq
      rcases hbad with hu | hf
      · rcases hfact : r.fact with _ | f
        · exact ⟨"AttributeError: fact", by simp [formatResults, normalizeRecord, hfact]⟩
        · exact ⟨"AttributeError: uuid", by simp [formatResults, normalizeRecord, hfact, hu]⟩
      · exact ⟨"AttributeError: fact", by simp [formatResults, normalizeRecord, hf]⟩
    · obtain ⟨e, he⟩ := ih hmem2
      rcases hnr : normalizeRecord hd with e2 | fr
      · exact ⟨e2, by simp [formatResults, hnr]⟩
      · exact ⟨e, by simp [formatResults, hnr, he]⟩

/-- C2 (witness): the amended statement applied to the singleton batch
holding the record that misses its uuid. -/
theorem formatResults_error_of_malformed_witness :
    (rawMissingUuid ∈ [rawMissingUuid] ∧ rawMissingUuid.uuid = none)
    ∧ ∃ e, formatResults [rawMissingUuid] = Except.error e :=
  ⟨⟨by simp, rfl⟩,
   formatResults_error_of_malformed [rawMissingUuid] rawMissingUuid (by simp) (Or.inl rfl)⟩

/-- C4: a raw result whose statement contains the substring 1kWh is
normalized to a fact whose statement is exactly the phrase
"1 kWh is equivalent to " followed by the original statement unchanged,
and the unique identifier is preserved. -/
theorem normalizer_1kWh_rewrite :
    ∀ (r : RawResult) (u f : String), r.uuid = some u → r.fact = some f →
      pyIn "1kWh" f = true →
      ∃ out, normalizeRecord r = Except.ok out
        ∧ out.fact = "1 kWh is equivalent to " ++ f ∧ out.uuid = u := by
  intro r u f hu hf hin
  simp only [normalizeRecord, hf, hu, hin, if_true]
  exact ⟨_, rfl, rfl, rfl⟩

/-- C4 (witness): the rewrite rule applied to a record whose statement is
exactly the token 1kWh. -/
theorem normalizer_1kWh_rewrite_witness :
    (rawAnalogy.uuid = some "u1" ∧ rawAnalogy.fact = some "1kWh"
      ∧ pyIn "1kWh" "1kWh" = true)
    ∧ ∃ out, normalizeRecord rawAnalogy = Except.ok out
        ∧ out.fact = "1 kWh is equivalent to " ++ "1kWh" ∧ out.uuid = "u1" :=
  ⟨⟨rfl, rfl, by decide⟩,
   normalizer_1kWh_rewrite rawAnalogy "u1" "1kWh" rfl rfl (by decide)⟩

/-- C6: when the store search raises, the adapter returns the very same
error, logs it with the prefix "Error searching Graphiti: ", leaves the
connection handle untouched, and issues the store search exactly once
(no retry). -/
theorem search_failure_logged_reraised_no_retry :
    ∀ (e : String) (conn : StoreConn),
      search_graphiti (Except.error e) conn =
        (Except.error e, conn, 1, ["Error searching Graphiti: " ++ e]) := by
  intro e conn
  rfl

/-- C10: for a well-formed raw record, each temporal field of the
normalized fact is set exactly when the corresponding raw attribute is
present and truthy, in which case it holds the str rendering of the raw
value; an absent attribute or a falsy value leaves the field unset. -/
theorem temporal_fields_copied_when_truthy :
    ∀ (r : RawResult) (u f : String), r.uuid = some u → r.fact = some f →
      ∃ out, normalizeRecord r = Except.ok out
        ∧ (∀ v, r.valid_at = some v → v.truthy = true → out.valid_at = some v.pyStr)
        ∧ (∀ v, r.valid_at = some v → v.truthy = false → out.valid_at = none)
        ∧ (r.valid_at = none → out.valid_at = none)
        ∧ (∀ v, r.invalid_at = some v → v.truthy = true → out.invalid_at = some v.pyStr)
        ∧ (∀ v, r.invalid_at = some v → v.truthy = false → out.invalid_at = none)
        ∧ (r.invalid_at = none → out.invalid_at = none) := by
  intro r u f hu hf
  simp only [normalizeRecord, hf, hu]
  refine ⟨_, rfl, ?_, ?_, ?_, ?_, ?_, ?_⟩
  · intro v hv ht
    simp [hv, ht]
  · intro v hv ht
    simp [hv, ht]
  · intro hv
    simp [hv]
  · intro v hv ht
    simp [hv, ht]
  · intro v hv ht
    simp [hv, ht]
  · intro hv
    simp [hv]

/-- C10 (witness): the temporal rule applied to a record with a truthy
datetime in valid_at and a falsy empty string in invalid_at. -/
theorem temporal_fields_copied_when_truthy_witness :
    (rawTemporal.uuid = some "u2"
      ∧ rawTemporal.fact = some "NYC electricity costs 0.23 per kWh")
    ∧ ∃ out, normalizeRecord rawTemporal = Except.ok out
        ∧ (∀ v, rawTemporal.valid_at = some v → v.truthy = true → out.valid_at = some v.pyStr)
        ∧ (∀ v, rawTemporal.valid_at = some v → v.truthy = false → out.valid_at = none)
        ∧ (rawTemporal.valid_at = none → out.valid_at = none)
        ∧ (∀ v, rawTemporal.invalid_at = some v → v.truthy = true → out.invalid_at = some v.pyStr)
        ∧ (∀ v, rawTemporal.invalid_at = some v → v.truthy = false → out.invalid_at = none)
        ∧ (rawTemporal.invalid_at = none → out.invalid_at = none) :=
  ⟨⟨rfl, rfl⟩,
   temporal_fields_copied_when_truthy rawTemporal "u2" "NYC electricity costs 0.23 per kWh"
     rfl rfl⟩

/-- C1: claimed behaviour is that after each successful turn the history
passed to the next turn is the prior messages unmodified followed by
exactly the new user message and the new agent message, with no
duplicated prior messages.  Evaluation at two successful turns shows the
code instead re-inserts the whole prior history, because line 182 extends
the list with all_messages, which already contains the supplied history:
after the second turn the history holds the first turn twice. -/
theorem history_after_two_turns_duplicates :
    session_after [("q1", Except.ok ["a1"]), ("q2", Except.ok ["a2"])] =
      [Message.user "q1", Message.agent "a1", Message.user "q1", Message.agent "a1",
       Message.user "q2", Message.agent "a2"]
    ∧ session_after [("q1", Except.ok ["a1"]), ("q2", Except.ok ["a2"])] ≠
      [Message.user "q1", Message.agent "a1", Message.user "q2", Message.agent "a2"] := by
  decide

/-- C3: a turn whose provider or tool call raises leaves the chat history
identical by value to its state before the turn: the except branch is
taken before the extend on line 182 runs, so nothing is appended, and the
loop then accepts the next turn against the same list. -/
theorem failed_turn_leaves_history_unchanged :
    ∀ (messages : List Message) (userInput e : String),
      run_turn messages userInput (Except.error e) = messages := by
  intro messages userInput e
  rfl

/-- Helper: the final accumulator of the streaming loop is the left fold
of string append over the fragments. -/
theorem stream_fst_eq (curr : String) (frags : List String) :
    (stream_text_deltas curr frags).1 = frags.foldl (fun a b => a ++ b) curr := by
  induction frags generalizing curr with
  | nil => rfl
  | cons f fs ih => simp [stream_text_deltas, ih]

/-- Helper: the partial state exposed after fragment k is the fold of the
first k+1 fragments onto the starting accumulator. -/
theorem stream_snd_get (curr : String) (frags : List String) (k : Nat)
    (hk : k < frags.length) :
    (stream_text_deltas curr frags).2[k]? =
      some ((frags.take (k + 1)).foldl (fun a b => a ++ b) curr) := by
  induction frags generalizing curr k with
  | nil => simp at hk
  | cons f fs ih =>
    cases k with
    | zero => simp [stream_text_deltas]
    | succ k =>
      have hk2 : k < fs.length := by simpa using hk
      have := ih (curr ++ f) k hk2
      simpa [stream_text_deltas] using this

/-- C5: in streaming mode the partial answer shown after fragment k is
the concatenation of the first k fragments in arrival order, and the
final reconstructed answer is the concatenation of all fragments; no
fragment is dropped or reordered. -/
theorem streaming_accumulates_fragments_in_order :
    ∀ (frags : List String),
      (stream_text_deltas "" frags).1 = frags.foldl (fun a b => a ++ b) ""
      ∧ ∀ (k : Nat), k < frags.length →
          (stream_text_deltas "" frags).2[k]? =
            some ((frags.take (k + 1)).foldl (fun a b => a ++ b) "") := by
  intro frags
  exact ⟨stream_fst_eq "" frags, fun k hk => stream_snd_get "" frags k hk⟩

/-- C5 (witness): the streaming law applied to the two fragments Hel and
lo, checking the final text and the partial state after the second
fragment. -/
theorem streaming_accumulates_fragments_in_order_witness :
    (1 < (["Hel", "lo"] : List String).length)
    ∧ (stream_text_deltas "" ["Hel", "lo"]).1 =
        (["Hel", "lo"] : List String).foldl (fun a b => a ++ b) ""
    ∧ (stream_text_deltas "" ["Hel", "lo"]).2[1]? =
        some (((["Hel", "lo"] : List String).take 2).foldl (fun a b => a ++ b) "") :=
  ⟨by decide, (streaming_accumulates_fragments_in_order ["Hel", "lo"]).1,
   (streaming_accumulates_fragments_in_order ["Hel", "lo"]).2 1 (by decide)⟩

/-- C7: claimed behaviour is that every absent connection parameter falls
back to a documented default in each front end.  Counterexample: in the
form front end the password lookup has no default, so with the variable
absent the password is None rather than any default string. -/
theorem ui_password_has_no_default :
    ui_neo4j_password (fun _ => none) = none
    ∧ ¬ ∃ s, ui_neo4j_password (fun _ => none) = some s := by
  refine ⟨rfl, ?_⟩
  rintro ⟨s, hs⟩
  exact Option.noConfusion hs

/-- C7 (amended): in the chat front end all three connection parameters
fall back to documented defaults when absent; in the form front end the
uri and user fall back to the same defaults, but an absent password is
passed through as None instead of a default. -/
theorem connection_env_fallbacks :
    ∀ (env : String → Option String),
      (env "NEO4J_URI" = none →
        agent_neo4j_uri env = "neo4j://127.0.0.1:7687"
        ∧ ui_neo4j_uri env = "neo4j://127.0.0.1:7687")
      ∧ (env "NEO4J_USER" = none →
        agent_neo4j_user env = "neo4j" ∧ ui_neo4j_user env = "neo4j")
      ∧ (env "NEO4J_PASSWORD" = none →
        agent_neo4j_password env = "unisunis" ∧ ui_neo4j_password env = none) := by
  intro env
  refine ⟨fun h => ?_, fun h => ?_, fun h => ?_⟩ <;>
    simp [agent_neo4j_uri, ui_neo4j_uri, agent_neo4j_user, ui_neo4j_user,
      agent_neo4j_password, ui_neo4j_password, h]

/-- C7 (witness): the fallback behaviour at an environment defining no
variables at all. -/
theorem connection_env_fallbacks_witness :
    ((fun _ => (none : Option String)) "NEO4J_URI" = none)
    ∧ agent_neo4j_uri (fun _ => none) = "neo4j://127.0.0.1:7687"
    ∧ ui_neo4j_uri (fun _ => none) = "neo4j://127.0.0.1:7687"
    ∧ agent_neo4j_password (fun _ => none) = "unisunis"
    ∧ ui_neo4j_password (fun _ => none) = none :=
  ⟨rfl, ((connection_env_fallbacks (fun _ => none)).1 rfl).1,
   ((connection_env_fallbacks (fun _ => none)).1 rfl).2,
   ((connection_env_fallbacks (fun _ => none)).2.2 rfl).1,
   ((connection_env_fallbacks (fun _ => none)).2.2 rfl).2⟩

/-- C8: the query built for appliance Fridge, duration 3, unit hours/day
and default rate mode contains the lower-cased appliance name, the
duration, the unit, and the phrase asking for 5 physical analogies; the
builder itself is a plain function of these inputs. -/
theorem query_default_contains_required_substrings :
    pyIn "fridge" (build_query "Fridge" 3 "hours/day" 0 "Select a City") = true
    ∧ pyIn "3" (build_query "Fridge" 3 "hours/day" 0 "Select a City") = true
    ∧ pyIn "hours/day" (build_query "Fridge" 3 "hours/day" 0 "Select a City") = true
    ∧ pyIn "5 physical analogies" (build_query "Fridge" 3 "hours/day" 0 "Select a City") = true := by
  decide

/-- C9: whenever a positive custom rate is set, the built query is
independent of the selected city (the city is ignored) and carries the
rendered custom rate. -/
theorem query_custom_rate_ignores_city :
    ∀ (appliance : String) (time : Nat) (unit : String) (rate : Rat) (city1 city2 : String),
      0 < rate →
      build_query appliance time unit rate city1 = build_query appliance time unit rate city2
      ∧ ∃ a b, build_query appliance time unit rate city1 = a ++ pyFloatStr rate ++ b := by
  intro appliance time unit rate city1 city2 hr
  constructor
  · simp [build_query, hr]
  · refine ⟨"\n            I use my " ++ pyLower appliance ++ " for " ++ toString time ++
      " " ++ unit ++ " with electricity rate $",
      "/kWh. \n            What is the energy consumption and cost? Please provide all 5 physical analogies.\n            ", ?_⟩
    simp [build_query, hr]

/-- C9 (witness): the rule applied at the custom rate 0.30 with the city
Boston selected; the built string also demonstrably omits Boston. -/
theorem query_custom_rate_ignores_city_witness :
    (0 < rate030)
    ∧ build_query "Fridge" 3 "hours/day" rate030 "Boston" =
        build_query "Fridge" 3 "hours/day" rate030 "Select a City"
    ∧ (∃ a b, build_query "Fridge" 3 "hours/day" rate030 "Boston" =
        a ++ pyFloatStr rate030 ++ b)
    ∧ pyIn "Boston" (build_query "Fridge" 3 "hours/day" rate030 "Boston") = false :=
  ⟨by decide,
   (query_custom_rate_ignores_city "Fridge" 3 "hours/day" rate030 "Boston"
     "Select a City" (by decide)).1,
   (query_custom_rate_ignores_city "Fridge" 3 "hours/day" rate030 "Boston"
     "Select a City" (by decide)).2,
   by decide⟩

end EcoCalc
